import Mathlib

/-!
Shallow embedding of the application bootstrapper in
`src/src-tauri/src/lib.rs` (function `run`).

The Rust source builds a Tauri application: it registers the filesystem
plugin, then the dialog plugin, then installs a setup callback, then starts
the run loop with `.run(...).expect("error while running tauri application")`.
Inside the setup callback it

  * in debug builds (`cfg!(debug_assertions)`) registers the logging plugin
    configured with `log::LevelFilter::Info`, propagating failure with `?`;
  * looks up the webview window labelled `"main"` and `unwrap`s the result;
  * on the macOS target only (`#[cfg(target_os = "macos")]`) calls
    `window.set_title_bar_style(TitleBarStyle::Overlay).unwrap()`;
  * returns `Ok(())`.

The embedding models the compile-time configuration and the fallible
framework calls as an environment `Env`, and records every framework call
as an event, so the order and multiplicity of the calls and the outcome
(running vs. aborted with a message) are observable.
-/

namespace PDFai

/-- Mirror of `log::LevelFilter` from the Rust `log` crate. -/
inductive LevelFilter
  | Off
  | Error
  | Warn
  | Info
  | Debug
  | Trace
deriving DecidableEq, Repr

/-- Mirror of `tauri::TitleBarStyle`. -/
inductive TitleBarStyle
  | Visible
  | Transparent
  | Overlay
deriving DecidableEq, Repr

/-- The plugins registered by `run`: `tauri_plugin_fs::init()`,
`tauri_plugin_dialog::init()`, and the logging plugin
`tauri_plugin_log::Builder::default().level(l).build()` carrying its
configured level filter. -/
inductive Plugin
  | fs
  | dialog
  | logWith (level : LevelFilter)
deriving DecidableEq, Repr

/-- Observable framework calls made by `run` and its setup callback. -/
inductive Event
  | registerPlugin (p : Plugin)
  | getWebviewWindow (label : String)
  | setTitleBarStyle (label : String) (style : TitleBarStyle)
deriving DecidableEq, Repr

/-- The environment of one execution of `run`: the compile-time
configuration (`cfg!(debug_assertions)`, `#[cfg(target_os = "macos")]`),
the window labels declared in the generated context, and whether each
fallible framework call succeeds when reached. -/
structure Env where
  debug_assertions : Bool
  target_os_macos : Bool
  windows : List String
  logPluginOk : Bool
  setTitleBarStyleOk : Bool
  runLoopOk : Bool
deriving Repr

/-- Result of the setup callback: `ok` models the callback returning
`Ok(())`, `err` models an error propagated with `?`, `panicked` models a
panic from `unwrap`. Each carries the trace of events the callback
performed. -/
inductive SetupResult
  | ok (t : List Event)
  | err (t : List Event) (msg : String)
  | panicked (t : List Event) (msg : String)
deriving DecidableEq, Repr

/-- `true` iff the setup callback returned `Ok(())`. -/
def SetupResult.isOk : SetupResult → Bool
  | SetupResult.ok _ => true
  | SetupResult.err _ _ => false
  | SetupResult.panicked _ _ => false

/-- The part of the setup callback after the conditional logging-plugin
registration: `let window = app.get_webview_window("main").unwrap();`
followed by the macOS-only
`window.set_title_bar_style(TitleBarStyle::Overlay).unwrap()`. -/
def setupRest (env : Env) (t : List Event) : SetupResult :=
  let t := t ++ [Event.getWebviewWindow "main"]
  if "main" ∈ env.windows then
    if env.target_os_macos then
      let t := t ++ [Event.setTitleBarStyle "main" TitleBarStyle.Overlay]
      if env.setTitleBarStyleOk then SetupResult.ok t
      else SetupResult.panicked t "called Result::unwrap on an Err value"
    else SetupResult.ok t
  else SetupResult.panicked t "called Option::unwrap on a None value"

/-- The setup callback passed to `.setup(|app| ...)`: in debug builds it
first registers the logging plugin configured with
`log::LevelFilter::Info`, propagating a registration failure with `?`;
then it continues with `setupRest`. -/
def setup (env : Env) : SetupResult :=
  if env.debug_assertions then
    let t := [Event.registerPlugin (Plugin.logWith LevelFilter.Info)]
    if env.logPluginOk then setupRest env t
    else SetupResult.err t "log plugin registration failed"
  else setupRest env []

/-- Outcome of `run`: either the run loop is entered (`running`) or the
process aborts with a panic message (`aborted`). Both carry the full
event trace of the execution. -/
inductive Outcome
  | running (t : List Event)
  | aborted (t : List Event) (msg : String)
deriving DecidableEq, Repr

/-- `true` iff the execution reached the Running state. -/
def Outcome.isRunning : Outcome → Bool
  | Outcome.running _ => true
  | Outcome.aborted _ _ => false

/-- The two builder-level plugin registrations performed before the setup
callback: `.plugin(tauri_plugin_fs::init())` then
`.plugin(tauri_plugin_dialog::init())`. -/
def builderTrace : List Event :=
  [Event.registerPlugin Plugin.fs, Event.registerPlugin Plugin.dialog]

/-- The whole of `pub fn run()`: builder plugins, setup callback, then
`.run(tauri::generate_context!()).expect("error while running tauri application")`.
A setup error propagated with `?` surfaces through the `Err` of `.run`
and hits the `expect`; a panic inside setup aborts with its own message;
a failure to start the run loop also hits the `expect`. -/
def run (env : Env) : Outcome :=
  match setup env with
  | SetupResult.ok t =>
      if env.runLoopOk then Outcome.running (builderTrace ++ t)
      else Outcome.aborted (builderTrace ++ t) "error while running tauri application"
  | SetupResult.err t _ =>
      Outcome.aborted (builderTrace ++ t) "error while running tauri application"
  | SetupResult.panicked t m =>
      Outcome.aborted (builderTrace ++ t) m

/-- The event trace of an execution, whether it ran or aborted. -/
def runTrace (env : Env) : List Event :=
  match run env with
  | Outcome.running t => t
  | Outcome.aborted t _ => t

/-- Recognizer for title-bar styling events. -/
def isStyleEvent : Event → Bool
  | Event.setTitleBarStyle _ _ => true
  | _ => false

/-- Recognizer for logging-plugin registration events. -/
def isLogRegEvent : Event → Bool
  | Event.registerPlugin (Plugin.logWith _) => true
  | _ => false

/-- Recognizer for window-lookup events. -/
def isLookupEvent : Event → Bool
  | Event.getWebviewWindow _ => true
  | _ => false

/-- How many title-bar styling calls a trace contains. -/
def countStyle (t : List Event) : Nat := (t.filter isStyleEvent).length

/-- How many logging-plugin registrations a trace contains. -/
def countLogReg (t : List Event) : Nat := (t.filter isLogRegEvent).length

/-- How many window lookups a trace contains. -/
def countLookup (t : List Event) : Nat := (t.filter isLookupEvent).length

/-- The canonical fully ordered call sequence of one execution of `run`:
filesystem plugin, dialog plugin, logging plugin in debug builds, the
main-window lookup, and the styling call on macOS. -/
def canonicalTrace (env : Env) : List Event :=
  builderTrace
    ++ (if env.debug_assertions then
          [Event.registerPlugin (Plugin.logWith LevelFilter.Info)] else [])
    ++ [Event.getWebviewWindow "main"]
    ++ (if env.target_os_macos then
          [Event.setTitleBarStyle "main" TitleBarStyle.Overlay] else [])

/-- An execution reaches Running exactly when none of the fallible steps
fails: the logging plugin registers (in debug builds), a window labelled
`"main"` exists, the styling call succeeds (on macOS), and the run loop
starts. -/
def successConds (env : Env) : Prop :=
  (env.debug_assertions = true → env.logPluginOk = true)
  ∧ "main" ∈ env.windows
  ∧ (env.target_os_macos = true → env.setTitleBarStyleOk = true)
  ∧ env.runLoopOk = true

instance (env : Env) : Decidable (successConds env) := by
  unfold successConds
  infer_instance

/-- An environment in which every step succeeds (macOS debug build with a
`"main"` window). -/
def envAllOk : Env :=
  { debug_assertions := true, target_os_macos := true, windows := ["main"],
    logPluginOk := true, setTitleBarStyleOk := true, runLoopOk := true }

/-- An environment with no window at all. -/
def envNoWin : Env :=
  { debug_assertions := true, target_os_macos := true, windows := [],
    logPluginOk := true, setTitleBarStyleOk := true, runLoopOk := true }

/-- A release build on a non-macOS target in which every step succeeds. -/
def envRelease : Env :=
  { debug_assertions := false, target_os_macos := false, windows := ["main"],
    logPluginOk := true, setTitleBarStyleOk := true, runLoopOk := true }

/-- An environment in which setup succeeds but the run loop fails to
start. -/
def envLoopFail : Env :=
  { debug_assertions := false, target_os_macos := false, windows := ["main"],
    logPluginOk := true, setTitleBarStyleOk := true, runLoopOk := false }

/-- A macOS release build whose generated context declares no `"main"`
window. -/
def envMacNoWin : Env :=
  { debug_assertions := false, target_os_macos := true, windows := [],
    logPluginOk := true, setTitleBarStyleOk := true, runLoopOk := true }

/-- A debug build in which the logging-plugin registration fails. -/
def envLogFail : Env :=
  { debug_assertions := true, target_os_macos := true, windows := ["main"],
    logPluginOk := false, setTitleBarStyleOk := true, runLoopOk := true }

/-- Claim C1: for every run configuration in which no window labelled
"main" exists by the time the setup callback executes, bootstrap
deterministically aborts and never reaches the Running state. -/
theorem c1_missing_main_aborts (env : Env) (h : "main" ∉ env.windows) :
    (run env).isRunning = false ∧ ∃ t m, run env = Outcome.aborted t m := by
  obtain ⟨d, m, ws, l, s, r⟩ := env
  cases d <;> cases m <;> cases l <;> cases s <;> cases r <;>
    simp_all [run, setup, setupRest, Outcome.isRunning]

/-- Witness for C1 at the concrete environment with no windows. -/
theorem c1_missing_main_aborts_witness :
    (run envNoWin).isRunning = false ∧ ∃ t m, run envNoWin = Outcome.aborted t m :=
  c1_missing_main_aborts envNoWin (by decide)

/-- Counterexample to Claim C2 as stated: in `envLoopFail` a window named
"main" is declared and every plugin registration and styling call
succeeds, the setup callback returns success, and yet bootstrap does not
reach the Running state, because the run loop fails to start. -/
theorem c2_counterexample :
    "main" ∈ envLoopFail.windows
    ∧ envLoopFail.logPluginOk = true
    ∧ envLoopFail.setTitleBarStyleOk = true
    ∧ (setup envLoopFail).isOk = true
    ∧ (run envLoopFail).isRunning = false := by decide

/-- Claim C2 (amended): for every run configuration that declares a window
named "main", in which every plugin registration and (on macOS) the
title-bar styling call succeed, and in which the framework run loop
starts successfully, the setup callback returns success and bootstrap
reaches the Running state without aborting. -/
theorem c2_success_reaches_running (env : Env)
    (hwin : "main" ∈ env.windows)
    (hlog : env.debug_assertions = true → env.logPluginOk = true)
    (hstyle : env.target_os_macos = true → env.setTitleBarStyleOk = true)
    (hloop : env.runLoopOk = true) :
    (setup env).isOk = true ∧ (run env).isRunning = true := by
  obtain ⟨d, m, ws, l, s, r⟩ := env
  cases d <;> cases m <;> cases l <;> cases s <;> cases r <;>
    simp_all [run, setup, setupRest, SetupResult.isOk, Outcome.isRunning]

/-- Witness for the amended C2 at a fully succeeding environment. -/
theorem c2_success_reaches_running_witness :
    (setup envAllOk).isOk = true ∧ (run envAllOk).isRunning = true :=
  c2_success_reaches_running envAllOk (by decide) (by decide) (by decide) (by decide)

/-- Counterexample to Claim C3 as stated: `envMacNoWin` is a macOS build,
yet the execution performs the title-bar styling call zero times, not
exactly once, because setup aborts at the missing main window first. -/
theorem c3_counterexample :
    envMacNoWin.target_os_macos = true
    ∧ countStyle (runTrace envMacNoWin) = 0
    ∧ (run envMacNoWin).isRunning = false := by decide

/-- Claim C3 (amended): on the macOS target the title-bar styling call
occurs at most once in any execution and exactly once in every execution
whose setup callback returns success, and a failing styling call
prevents the Running state; on every other target the styling call never
occurs; every styling call that does occur targets the "main" window
with the Overlay style. -/
theorem c3_style_overlay (env : Env) :
    (env.target_os_macos = true →
      countStyle (runTrace env) ≤ 1
      ∧ ((setup env).isOk = true → countStyle (runTrace env) = 1)
      ∧ (env.setTitleBarStyleOk = false → (run env).isRunning = false))
    ∧ (env.target_os_macos = false → countStyle (runTrace env) = 0)
    ∧ (∀ lbl st, Event.setTitleBarStyle lbl st ∈ runTrace env →
        lbl = "main" ∧ st = TitleBarStyle.Overlay) := by
  obtain ⟨d, m, ws, l, s, r⟩ := env
  by_cases h : "main" ∈ ws <;>
    cases d <;> cases m <;> cases l <;> cases s <;> cases r <;>
      simp_all [run, setup, setupRest, runTrace, countStyle, isStyleEvent,
        SetupResult.isOk, Outcome.isRunning, builderTrace]

/-- Witness for the amended C3: exactly one styling call in a succeeding
macOS execution, none in a non-macOS execution. -/
theorem c3_style_overlay_witness :
    countStyle (runTrace envAllOk) = 1 ∧ countStyle (runTrace envRelease) = 0 :=
  ⟨((c3_style_overlay envAllOk).1 rfl).2.1 (by decide),
   (c3_style_overlay envRelease).2.1 rfl⟩

/-- Claim C4: in every debug build, setup registers the logging plugin
exactly once, always configured with the informational level filter, and
a failed registration is returned as a setup error so the Running state
is never reached. -/
theorem c4_debug_log_plugin (env : Env) (h : env.debug_assertions = true) :
    countLogReg (runTrace env) = 1
    ∧ (∀ l, Event.registerPlugin (Plugin.logWith l) ∈ runTrace env →
        l = LevelFilter.Info)
    ∧ (env.logPluginOk = false →
        (∃ t m, setup env = SetupResult.err t m) ∧ (run env).isRunning = false) := by
  obtain ⟨d, m, ws, l, s, r⟩ := env
  by_cases hw : "main" ∈ ws <;>
    cases d <;> cases m <;> cases l <;> cases s <;> cases r <;>
      simp_all [run, setup, setupRest, runTrace, countLogReg, isLogRegEvent,
        Outcome.isRunning, builderTrace]

/-- Witness for C4: one Info-level logging registration in a debug build,
and a fatal setup error when the registration fails. -/
theorem c4_debug_log_plugin_witness :
    countLogReg (runTrace envAllOk) = 1
    ∧ ((∃ t m, setup envLogFail = SetupResult.err t m)
        ∧ (run envLogFail).isRunning = false) :=
  ⟨(c4_debug_log_plugin envAllOk rfl).1,
   (c4_debug_log_plugin envLogFail rfl).2.2 rfl⟩

/-- Claim C5: in every release (non-debug) build, no logging plugin is
ever registered during bootstrap. -/
theorem c5_release_no_log (env : Env) (h : env.debug_assertions = false) :
    countLogReg (runTrace env) = 0 := by
  obtain ⟨d, m, ws, l, s, r⟩ := env
  by_cases hw : "main" ∈ ws <;>
    cases d <;> cases m <;> cases l <;> cases s <;> cases r <;>
      simp_all [run, setup, setupRest, runTrace, countLogReg, isLogRegEvent,
        builderTrace]

/-- Witness for C5 at a concrete release build. -/
theorem c5_release_no_log_witness : countLogReg (runTrace envRelease) = 0 :=
  c5_release_no_log envRelease rfl

/-- Claim C6: every execution performs its configuration steps in the
fixed order filesystem plugin, dialog plugin, logging plugin (debug
builds only), main-window lookup, platform styling (macOS only): its
event trace is a prefix of the canonical ordered sequence, and a fully
successful execution performs exactly that sequence. -/
theorem c6_call_order (env : Env) :
    List.isPrefixOf (runTrace env) (canonicalTrace env) = true
    ∧ ((run env).isRunning = true → runTrace env = canonicalTrace env) := by
  obtain ⟨d, m, ws, l, s, r⟩ := env
  by_cases h : "main" ∈ ws <;>
    cases d <;> cases m <;> cases l <;> cases s <;> cases r <;>
      simp_all [run, setup, setupRest, runTrace, canonicalTrace, builderTrace,
        Outcome.isRunning, List.isPrefixOf]

/-- Witness for C6: the fully successful execution performs exactly the
canonical sequence. -/
theorem c6_call_order_witness : runTrace envAllOk = canonicalTrace envAllOk :=
  (c6_call_order envAllOk).2 (by decide)

/-- Claim C7: whenever the framework run loop fails to start, bootstrap
aborts with a nonempty diagnostic message and never reaches Running. -/
theorem c7_loop_fail_fatal (env : Env) (h : env.runLoopOk = false) :
    (run env).isRunning = false
    ∧ ∃ t m, run env = Outcome.aborted t m ∧ 0 < m.length := by
  obtain ⟨d, m, ws, l, s, r⟩ := env
  by_cases hw : "main" ∈ ws <;>
    cases d <;> cases m <;> cases l <;> cases s <;> cases r <;>
      simp_all [run, setup, setupRest, Outcome.isRunning] <;>
        exact ⟨_, _, ⟨rfl, rfl⟩, by decide⟩

/-- Witness for C7 at a concrete environment whose run loop fails. -/
theorem c7_loop_fail_fatal_witness :
    (run envLoopFail).isRunning = false
    ∧ ∃ t m, run envLoopFail = Outcome.aborted t m ∧ 0 < m.length :=
  c7_loop_fail_fatal envLoopFail rfl

/-- Claim C8: an execution reaches Running exactly when no fallible step
fails; any failure yields an aborted outcome; and no step is ever
retried: each logging registration, window lookup and styling call
occurs at most once in any execution. -/
theorem c8_failures_abort (env : Env) :
    ((run env).isRunning = true ↔ successConds env)
    ∧ (¬ successConds env → ∃ t m, run env = Outcome.aborted t m)
    ∧ countLogReg (runTrace env) ≤ 1
    ∧ countLookup (runTrace env) ≤ 1
    ∧ countStyle (runTrace env) ≤ 1 := by
  obtain ⟨d, m, ws, l, s, r⟩ := env
  by_cases h : "main" ∈ ws <;>
    cases d <;> cases m <;> cases l <;> cases s <;> cases r <;>
      simp_all [run, setup, setupRest, runTrace, successConds, builderTrace,
        countLogReg, countLookup, countStyle, isLogRegEvent, isLookupEvent,
        isStyleEvent, Outcome.isRunning]

/-- Witness for C8: the success equivalence at a fully succeeding
environment, and the abort guarantee at an environment with no windows. -/
theorem c8_failures_abort_witness :
    (run envAllOk).isRunning = true
    ∧ ∃ t m, run envNoWin = Outcome.aborted t m :=
  ⟨(c8_failures_abort envAllOk).1.mpr (by decide),
   (c8_failures_abort envNoWin).2.1 (by decide)⟩

/-- Claim C9: in a debug build whose logging-plugin registration fails,
the setup callback returns the error immediately after that single
registration, so neither the main-window lookup nor the title-bar
styling step is ever performed, and Running is never reached. -/
theorem c9_log_fail_stops_setup (env : Env)
    (hd : env.debug_assertions = true) (hl : env.logPluginOk = false) :
    (∃ m, setup env =
      SetupResult.err [Event.registerPlugin (Plugin.logWith LevelFilter.Info)] m)
    ∧ countLookup (runTrace env) = 0
    ∧ countStyle (runTrace env) = 0
    ∧ (run env).isRunning = false := by
  obtain ⟨d, m, ws, l, s, r⟩ := env
  cases d <;> cases m <;> cases l <;> cases s <;> cases r <;>
    simp_all [run, setup, setupRest, runTrace, countLookup, countStyle,
      isLookupEvent, isStyleEvent, Outcome.isRunning, builderTrace]

/-- Witness for C9 at a concrete debug build with a failing logging
registration. -/
theorem c9_log_fail_stops_setup_witness :
    (∃ m, setup envLogFail =
      SetupResult.err [Event.registerPlugin (Plugin.logWith LevelFilter.Info)] m)
    ∧ countLookup (runTrace envLogFail) = 0
    ∧ countStyle (runTrace envLogFail) = 0
    ∧ (run envLogFail).isRunning = false :=
  c9_log_fail_stops_setup envLogFail rfl rfl

/-- Claim C10: on every non-macOS target, setup never mutates the main
window: no title-bar styling event of any kind appears in the trace, so
the only operation touching the window is the lookup itself. -/
theorem c10_non_macos_no_window_mutation (env : Env)
    (h : env.target_os_macos = false) :
    countStyle (runTrace env) = 0
    ∧ ∀ lbl st, Event.setTitleBarStyle lbl st ∉ runTrace env := by
  obtain ⟨d, m, ws, l, s, r⟩ := env
  by_cases hw : "main" ∈ ws <;>
    cases d <;> cases m <;> cases l <;> cases s <;> cases r <;>
      simp_all [run, setup, setupRest, runTrace, countStyle, isStyleEvent,
        builderTrace]

/-- Witness for C10 at a concrete non-macOS environment. -/
theorem c10_non_macos_no_window_mutation_witness :
    countStyle (runTrace envRelease) = 0
    ∧ ∀ lbl st, Event.setTitleBarStyle lbl st ∉ runTrace envRelease :=
  c10_non_macos_no_window_mutation envRelease rfl

end PDFai
